import Mathlib

/-!
Shallow embedding of the youtube-podcast repository (src/models.py,
src/scheduler.py, src/downloader.py, src/app.py) and verification of the
frozen claims about it.

The sqlite database is modelled as an in-memory record `DB` holding the
channels and episodes tables.  Timestamps (datetime.now()) are threaded in
as explicit `Nat` arguments; the remote video service (yt-dlp, an external
collaborator) is an oracle record `Remote`; the random token generator
(secrets.token_urlsafe) is externalized as an explicit token argument.
Python truthiness of optional strings ("" and None are falsy) is modelled
by `strFalsy` / `truthyStr`; SQL NULL is `Option.none`.
-/

/-- config.py: AUDIO_FORMAT = "mp3". -/
def AUDIO_FORMAT : String := "mp3"

/-- models.py hash_password: SHA-256 modelled as an abstract deterministic
one-way function; the claims only use that it is a function of the
password. -/
def hash_password (password : String) : String := "sha256:" ++ password

/-- Python truthiness for an optional string: None and "" are falsy. -/
def strFalsy : Option String → Bool
  | none => true
  | some s => s == ""

/-- Python truthiness of an optional string value (negation of strFalsy). -/
def truthyStr (o : Option String) : Bool := !(strFalsy o)

/-- A row of the channels table (models.py init_db). -/
structure ChannelRec where
  id : Nat
  youtube_channel_id : String
  name : String
  url : String
  auth_type : String
  username : Option String
  password_hash : Option String
  secret_token : Option String
deriving Repr, DecidableEq

/-- A row of the episodes table (models.py init_db). -/
structure EpisodeRec where
  id : Nat
  channel_id : Nat
  video_id : String
  title : String
  description : Option String
  duration : Option Nat
  published_at : Option Nat
  audio_path : Option String
  downloaded_at : Option Nat
  thumbnail_url : Option String
deriving Repr, DecidableEq

/-- The sqlite database: the two tables plus the AUTOINCREMENT counter of
the episodes table. -/
structure DB where
  channels : List ChannelRec
  episodes : List EpisodeRec
  nextEpisodeId : Nat
deriving Repr, DecidableEq

namespace Channel

/-- models.py Channel.get_by_id: SELECT * FROM channels WHERE id = ?,
fetchone returns the first matching row. -/
def get_by_id (db : DB) (channel_id : Nat) : Option ChannelRec :=
  db.channels.find? (fun c => c.id == channel_id)

/-- models.py Channel.get_by_token: SELECT * FROM channels WHERE
secret_token = ?; a NULL secret_token never equals a supplied string. -/
def get_by_token (db : DB) (token : String) : Option ChannelRec :=
  db.channels.find? (fun c => c.secret_token == some token)

/-- The row transformer of the UPDATE in the auth_type = "none" branch of
Channel.update_auth. -/
def clearAuthRow (channel_id : Nat) (c : ChannelRec) : ChannelRec :=
  if c.id == channel_id then
    { c with auth_type := "none", username := none, password_hash := none,
             secret_token := none }
  else c

/-- The row transformer of the UPDATE in the auth_type = "basic" branch of
Channel.update_auth. -/
def basicAuthRow (channel_id : Nat) (username password : String)
    (c : ChannelRec) : ChannelRec :=
  if c.id == channel_id then
    { c with auth_type := "basic", username := some username,
             password_hash := some (hash_password password),
             secret_token := none }
  else c

/-- The row transformer of the UPDATE in the auth_type = "token" branch of
Channel.update_auth. -/
def tokenAuthRow (channel_id : Nat) (token : String)
    (c : ChannelRec) : ChannelRec :=
  if c.id == channel_id then
    { c with auth_type := "token", username := none, password_hash := none,
             secret_token := some token }
  else c

/-- models.py Channel.update_auth.  The fresh random token produced by
generate_token() in the "token" branch is passed in as `tok`.  Returns the
updated database and, as in the source, the secret token when auth_type is
"token".  A ValueError raised in the source is an `Except.error`; the
database is returned unchanged there because the UPDATE never ran. -/
def update_auth (db : DB) (channel_id : Nat) (auth_type : String)
    (username password : Option String) (tok : String) :
    Except String (DB × Option String) :=
  if auth_type == "none" then
    .ok ({ db with channels := db.channels.map (clearAuthRow channel_id) },
         none)
  else if auth_type == "basic" then
    if strFalsy username || strFalsy password then
      .error "Username and password required for basic auth"
    else
      let f := basicAuthRow channel_id (username.getD "") (password.getD "")
      .ok ({ db with channels := db.channels.map f }, none)
  else if auth_type == "token" then
    .ok ({ db with channels := db.channels.map (tokenAuthRow channel_id tok) },
         some tok)
  else
    .error ("Invalid auth type: " ++ auth_type)

/-- models.py Channel.verify_basic_auth: compares the stored username and
password hash against the supplied credentials; a missing row or NULL
stored fields compare unequal, as in Python. -/
def verify_basic_auth (db : DB) (channel_id : Nat)
    (username password : String) : Bool :=
  match Channel.get_by_id db channel_id with
  | none => false
  | some row =>
      row.username == some username &&
      row.password_hash == some (hash_password password)

end Channel

namespace Episode

/-- models.py Episode.get_by_video_id: SELECT * FROM episodes WHERE
video_id = ?, first matching row. -/
def get_by_video_id (db : DB) (video_id : String) : Option EpisodeRec :=
  db.episodes.find? (fun e => e.video_id == video_id)

/-- models.py Episode.create: INSERT with downloaded_at set to now iff the
supplied audio_path is truthy (Python: datetime.now() if audio_path else
None).  The UNIQUE constraint on video_id makes the INSERT fail when the
video id is already present. -/
def create (db : DB) (now : Nat) (channel_id : Nat) (video_id title : String)
    (description : Option String) (duration : Option Nat)
    (published_at : Option Nat) (audio_path : Option String)
    (thumbnail_url : Option String) : Except String (DB × Nat) :=
  if db.episodes.any (fun e => e.video_id == video_id) then
    .error "UNIQUE constraint failed: episodes.video_id"
  else
    .ok ({ db with
             episodes := db.episodes ++
               [{ id := db.nextEpisodeId, channel_id := channel_id,
                  video_id := video_id, title := title,
                  description := description, duration := duration,
                  published_at := published_at, audio_path := audio_path,
                  downloaded_at := if truthyStr audio_path then some now
                                   else none,
                  thumbnail_url := thumbnail_url }],
             nextEpisodeId := db.nextEpisodeId + 1 },
         db.nextEpisodeId)

/-- The row transformer of the UPDATE in Episode.update_audio_path. -/
def setAudioRow (now : Nat) (episode_id : Nat) (audio_path : String)
    (e : EpisodeRec) : EpisodeRec :=
  if e.id == episode_id then
    { e with audio_path := some audio_path, downloaded_at := some now }
  else e

/-- models.py Episode.update_audio_path: UPDATE episodes SET audio_path = ?,
downloaded_at = datetime.now() WHERE id = ?. -/
def update_audio_path (db : DB) (now : Nat) (episode_id : Nat)
    (audio_path : String) : DB :=
  { db with episodes := db.episodes.map (setAudioRow now episode_id audio_path) }

/-- Ordering used by ORDER BY published_at DESC: in sqlite NULL sorts below
every value, so in descending order NULLs come last. -/
def pubLe : Option Nat → Option Nat → Bool
  | none, _ => true
  | some _, none => false
  | some a, some b => a ≤ b

/-- models.py Episode.get_by_channel ("list_ready" of the spec): SELECT *
FROM episodes WHERE channel_id = ? AND audio_path IS NOT NULL ORDER BY
published_at DESC. -/
def get_by_channel (db : DB) (channel_id : Nat) : List EpisodeRec :=
  (db.episodes.filter
      (fun e => e.channel_id == channel_id && e.audio_path.isSome)).mergeSort
    (fun a b => pubLe b.published_at a.published_at)

/-- models.py Episode.delete_by_channel: DELETE FROM episodes WHERE
channel_id = ?. -/
def delete_by_channel (db : DB) (channel_id : Nat) : DB :=
  { db with episodes := db.episodes.filter (fun e => !(e.channel_id == channel_id)) }

end Episode

/-- An entry of the video list returned by downloader.py
fetch_channel_videos. -/
structure Video where
  video_id : String
  title : String
  url : String
deriving Repr, DecidableEq

/-- The metadata dict returned by downloader.py get_video_metadata. -/
structure VideoMetadata where
  title : String
  description : Option String
  duration : Option Nat
  published_at : Option Nat
  thumbnail_url : Option String
deriving Repr, DecidableEq

/-- The remote video service (yt-dlp), an external collaborator: outcomes
of fetch_channel_videos, get_video_metadata and of the network/extraction
part of download_audio (on success the byte size; the produced filename is
computed by the source, see download_audio below). -/
structure Remote where
  fetch_channel_videos : String → Except String (List Video)
  get_video_metadata : String → Except String VideoMetadata
  audioFetch : String → Except String Nat

/-- downloader.py download_audio: on success returns
(video_id + "." + AUDIO_FORMAT, file_size). -/
def download_audio (r : Remote) (video_id : String) :
    Except String (String × Nat) :=
  (r.audioFetch video_id).map (fun size => (video_id ++ "." ++ AUDIO_FORMAT, size))

/-- Observable calls made to the remote service during a refresh,
instrumenting the embedding so that "no re-download" is a statement about
the produced call log. -/
inductive RemoteCall where
  | metaFetch (video_id : String)
  | audioFetch (video_id : String)
deriving Repr, DecidableEq

namespace Scheduler

/-- The body of the inner try block of scheduler.py refresh_channel for one
video: fetch metadata, download audio, then update the existing episode or
create a new one.  `existing` is the Episode.get_by_video_id lookup done
before the try.  Returns the raised-or-succeeded outcome together with the
remote calls that were made before the outcome was reached. -/
def tryProcess (r : Remote) (now : Nat) (channel : ChannelRec) (db : DB)
    (v : Video) (existing : Option EpisodeRec) :
    Except String DB × List RemoteCall :=
  match r.get_video_metadata v.video_id with
  | .error e => (.error e, [.metaFetch v.video_id])
  | .ok metadata =>
    match download_audio r v.video_id with
    | .error e => (.error e, [.metaFetch v.video_id, .audioFetch v.video_id])
    | .ok (audio_filename, _) =>
      let calls := [RemoteCall.metaFetch v.video_id,
                    RemoteCall.audioFetch v.video_id]
      match existing with
      | some ex =>
          (.ok (Episode.update_audio_path db now ex.id audio_filename), calls)
      | none =>
        match Episode.create db now channel.id v.video_id metadata.title
            metadata.description metadata.duration metadata.published_at
            (some audio_filename) metadata.thumbnail_url with
        | .ok (db2, _) => (.ok db2, calls)
        | .error e => (.error e, calls)

/-- One iteration of the per-video loop of refresh_channel: skip when an
episode already exists with a truthy audio_path; otherwise run the try
block, and on any exception continue with the database unchanged. -/
def refreshStep (r : Remote) (now : Nat) (channel : ChannelRec) (db : DB)
    (v : Video) : DB × List RemoteCall :=
  let existing := Episode.get_by_video_id db v.video_id
  match existing with
  | some ex =>
    if truthyStr ex.audio_path then (db, [])
    else
      match tryProcess r now channel db v existing with
      | (.ok db2, calls) => (db2, calls)
      | (.error _, calls) => (db, calls)
  | none =>
    match tryProcess r now channel db v existing with
    | (.ok db2, calls) => (db2, calls)
    | (.error _, calls) => (db, calls)

/-- One loop iteration of refresh_channel threading the accumulated call
log alongside the database. -/
def refreshFoldStep (r : Remote) (now : Nat) (channel : ChannelRec)
    (acc : DB × List RemoteCall) (v : Video) : DB × List RemoteCall :=
  let step := refreshStep r now channel acc.1 v
  (step.1, acc.2 ++ step.2)

/-- scheduler.py refresh_channel: list the channel videos and run the
per-video loop; a listing failure (or any escaping exception) is caught by
the outer try, so the function always returns rather than raising.  The
second component is the log of remote metadata/audio calls made. -/
def refresh_channel (r : Remote) (now : Nat) (db : DB)
    (channel : ChannelRec) : DB × List RemoteCall :=
  match r.fetch_channel_videos channel.youtube_channel_id with
  | .error _ => (db, [])
  | .ok videos => videos.foldl (refreshFoldStep r now channel) (db, [])

end Scheduler

/-- The credential part of an HTTP request: the parsed Authorization
header, when present (flask request.authorization). -/
structure HttpRequest where
  authorization : Option (String × String)
deriving Repr, DecidableEq

/-- app.py check_auth: channels with auth_type "none" always pass, "basic"
verifies HTTP Basic credentials, "token" always fails here (token access
only via the separate token route). -/
def check_auth (db : DB) (req : HttpRequest) (channel : ChannelRec) : Bool :=
  if channel.auth_type == "none" then true
  else if channel.auth_type == "basic" then
    match req.authorization with
    | none => false
    | some (u, p) => Channel.verify_basic_auth db channel.id u p
  else false

/-- Outcome of a feed route, abstracting the HTTP layer: 200 with the
rendered episode list, 401 from require_auth (with the token-specific
message or the Basic challenge), 404, or the 403 of the token route. -/
inductive FeedResponse where
  | ok (episodes : List EpisodeRec)
  | unauthorizedTokenMsg
  | unauthorizedBasicChallenge
  | notFound
  | forbidden
deriving Repr, DecidableEq

/-- app.py get_feed composed with the require_auth decorator: resolve the
channel by local id, check auth, and on failure answer 401 with the
token-URL message for token channels and the Basic challenge otherwise. -/
def get_feed (db : DB) (req : HttpRequest) (channel_id : Nat) : FeedResponse :=
  match Channel.get_by_id db channel_id with
  | none => .notFound
  | some channel =>
    if check_auth db req channel then .ok (Episode.get_by_channel db channel_id)
    else if channel.auth_type == "token" then .unauthorizedTokenMsg
    else .unauthorizedBasicChallenge

/-- app.py get_feed_by_token: resolve by secret token, 404 when no channel
carries the token, 403 when the carrying channel is not in token mode,
otherwise 200 with the feed. -/
def get_feed_by_token (db : DB) (token : String) : FeedResponse :=
  match Channel.get_by_token db token with
  | none => .notFound
  | some channel =>
    if !(channel.auth_type == "token") then .forbidden
    else .ok (Episode.get_by_channel db channel.id)

/-- Outcome of the POST /channels/id/auth route. -/
inductive AuthUpdateResponse where
  | okNone
  | okBasic
  | okToken (token : String)
  | notFound
  | badRequest (msg : String)
deriving Repr, DecidableEq

/-- app.py update_channel_auth route (admin gate aside): 404 for an absent
channel; for "basic" a missing username or password is rejected with 400
before any update; for "token" the generated token is returned; any other
auth_type value is treated as "none".  `tok` is the fresh random token used
when switching to token mode. -/
def update_channel_auth (db : DB) (channel_id : Nat)
    (auth_type username password : Option String) (tok : String) :
    DB × AuthUpdateResponse :=
  match Channel.get_by_id db channel_id with
  | none => (db, .notFound)
  | some _ =>
    let at_ := auth_type.getD "none"
    if at_ == "basic" then
      if strFalsy username || strFalsy password then
        (db, .badRequest "Username and password required")
      else
        match Channel.update_auth db channel_id "basic" username password tok with
        | .ok (db2, _) => (db2, .okBasic)
        | .error e => (db, .badRequest e)
    else if at_ == "token" then
      match Channel.update_auth db channel_id "token" none none tok with
      | .ok (db2, t) => (db2, .okToken (t.getD ""))
      | .error e => (db, .badRequest e)
    else
      match Channel.update_auth db channel_id "none" none none tok with
      | .ok (db2, _) => (db2, .okNone)
      | .error e => (db, .badRequest e)

/-! ### Concrete witness inputs and verification-side definitions -/

/-- A concrete database with one pending episode, used to exhibit the
behaviour of repeated update_audio_path calls. -/
def dbPending : DB :=
  { channels := [],
    episodes := [{ id := 1, channel_id := 1, video_id := "v", title := "t",
                   description := none, duration := none, published_at := none,
                   audio_path := none, downloaded_at := none,
                   thumbnail_url := none }],
    nextEpisodeId := 2 }

/-- A channel in basic-auth mode, witness input. -/
def chBasicW : ChannelRec :=
  { id := 1, youtube_channel_id := "UC1", name := "n", url := "u",
    auth_type := "basic", username := some "alice",
    password_hash := some (hash_password "pw"), secret_token := none }

/-- A one-channel database in basic-auth mode, witness input. -/
def dbBasicW : DB := { channels := [chBasicW], episodes := [], nextEpisodeId := 1 }

/-- The database after switching the witness channel to token mode. -/
def dbTokenW : DB :=
  { channels := [{ id := 1, youtube_channel_id := "UC1", name := "n", url := "u",
                   auth_type := "token", username := none, password_hash := none,
                   secret_token := some "tokA" }],
    episodes := [], nextEpisodeId := 1 }

/-- A public (auth none) channel, witness input. -/
def chNoneW : ChannelRec :=
  { id := 1, youtube_channel_id := "UC1", name := "n", url := "u",
    auth_type := "none", username := none, password_hash := none,
    secret_token := none }

/-- A one-channel public database, witness input. -/
def dbNoneW : DB := { channels := [chNoneW], episodes := [], nextEpisodeId := 1 }

/-- The witness database after one token rotation with token "A". -/
def dbRotA : DB :=
  { channels := [{ id := 1, youtube_channel_id := "UC1", name := "n", url := "u",
                   auth_type := "token", username := none, password_hash := none,
                   secret_token := some "A" }],
    episodes := [], nextEpisodeId := 1 }

/-- The witness database after a second token rotation with token "B". -/
def dbRotB : DB :=
  { channels := [{ id := 1, youtube_channel_id := "UC1", name := "n", url := "u",
                   auth_type := "token", username := none, password_hash := none,
                   secret_token := some "B" }],
    episodes := [], nextEpisodeId := 1 }

/-- Episode-table states reachable through the episode operations of the
repository.  The audio references supplied by the call sites (scheduler.py
passes the filename returned by download_audio, video_id + ".mp3") are
never the empty string, which the create constructor records as the
none-or-nonempty side condition. -/
inductive EpisodesReachable : DB → Prop
  | init (channels : List ChannelRec) (n : Nat) :
      EpisodesReachable { channels := channels, episodes := [],
                          nextEpisodeId := n }
  | create_step (db db2 : DB) (eid now cid : Nat) (vid title : String)
      (d : Option String) (dur pub : Option Nat) (ap : Option String)
      (th : Option String) :
      EpisodesReachable db →
      (ap = none ∨ ∃ s, ap = some s ∧ s ≠ "") →
      Episode.create db now cid vid title d dur pub ap th = .ok (db2, eid) →
      EpisodesReachable db2
  | update_step (db : DB) (now eid : Nat) (ref : String) :
      EpisodesReachable db →
      EpisodesReachable (Episode.update_audio_path db now eid ref)
  | delete_step (db : DB) (cid : Nat) :
      EpisodesReachable db →
      EpisodesReachable (Episode.delete_by_channel db cid)

/-- A reachable database: one episode created with a downloaded audio
file, witness input. -/
def dbReachW : DB :=
  { channels := [], episodes :=
      [{ id := 1, channel_id := 1, video_id := "v", title := "t",
         description := none, duration := none, published_at := none,
         audio_path := some "v.mp3", downloaded_at := some 5,
         thumbnail_url := none }],
    nextEpisodeId := 2 }

/-- An episode for this remote video id exists and already has a truthy
audio reference: exactly the skip condition of refresh_channel. -/
def readyB (db : DB) (vid : String) : Bool :=
  match Episode.get_by_video_id db vid with
  | some e => truthyStr e.audio_path
  | none => false

/-- The single video of the C1 witness listing. -/
def vidW : Video := { video_id := "vid1", title := "T", url := "u" }

/-- The always-succeeding remote service of the C1 witness. -/
def remoteOkW : Remote :=
  { fetch_channel_videos := fun _ => .ok [vidW],
    get_video_metadata := fun _ =>
      .ok { title := "T", description := none, duration := some 10,
            published_at := some 100, thumbnail_url := none },
    audioFetch := fun _ => .ok 7 }

/-- An empty-episode database holding the public witness channel. -/
def dbSchedW : DB := { channels := [chNoneW], episodes := [], nextEpisodeId := 1 }

/-- First video of the C4 witness batch. -/
def vidW1 : Video := { video_id := "v1", title := "t1", url := "u1" }

/-- Second video of the C4 witness batch; its audio extraction fails. -/
def vidW2 : Video := { video_id := "v2", title := "t2", url := "u2" }

/-- Third video of the C4 witness batch. -/
def vidW3 : Video := { video_id := "v3", title := "t3", url := "u3" }

/-- The C4 witness remote service: lists three videos, metadata always
succeeds, audio extraction fails exactly for video "v2". -/
def remoteFailW : Remote :=
  { fetch_channel_videos := fun _ => .ok [vidW1, vidW2, vidW3],
    get_video_metadata := fun _ =>
      .ok { title := "T", description := none, duration := none,
            published_at := none, thumbnail_url := none },
    audioFetch := fun vid =>
      if vid == "v2" then .error "ExtractionFailed" else .ok 9 }

/-! ### Helper lemmas -/

/-- pubLe is total. -/
lemma pubLe_total (a b : Option Nat) :
    (Episode.pubLe a b || Episode.pubLe b a) = true := by
  cases a <;> cases b <;> simp [Episode.pubLe, Nat.le_total]

/-- pubLe is transitive. -/
lemma pubLe_trans (a b c : Option Nat) (h1 : Episode.pubLe a b = true)
    (h2 : Episode.pubLe b c = true) : Episode.pubLe a c = true := by
  cases a <;> cases b <;> cases c <;>
    simp_all [Episode.pubLe] <;> omega

/-- The audio filenames produced by download_audio are never the empty
string, hence always truthy in Python. -/
lemma download_name_truthy (vid : String) :
    truthyStr (some (vid ++ "." ++ AUDIO_FORMAT)) = true := by
  simp only [truthyStr, strFalsy, AUDIO_FORMAT, Bool.not_eq_true']
  rw [beq_eq_false_iff_ne]
  intro h
  have h2 := congrArg String.length h
  simp [String.length_append] at h2
  exact absurd h2.2 (by decide)

/-- find? over a list whose unique satisfying member is known. -/
lemma find?_eq_some_of_unique {α : Type} {p : α → Bool} {a : α} :
    ∀ {l : List α}, a ∈ l → p a = true → (∀ b ∈ l, p b = true → b = a) →
      l.find? p = some a := by
  intro l
  induction l with
  | nil => intro h; cases h
  | cons b t ih =>
    intro hmem hpa huniq
    by_cases hpb : p b = true
    · have hba : b = a := huniq b (List.mem_cons_self b t) hpb
      subst hba
      simp [List.find?, hpb]
    · have hba : b ≠ a := fun h => hpb (h ▸ hpa)
      have hmem2 : a ∈ t := by
        cases hmem with
        | head => exact absurd rfl hba
        | tail _ h => exact h
      simp only [List.find?, Bool.not_eq_true] at hpb ⊢
      rw [hpb]
      exact ih hmem2 hpa (fun b2 hb2 => huniq b2 (List.mem_cons_of_mem b hb2))

/-- Looking up a channel after an update whose row transformer preserves
ids. -/
lemma get_by_id_map (db : DB) (cid : Nat) (f : ChannelRec → ChannelRec)
    (hf : ∀ c, (f c).id = c.id) :
    Channel.get_by_id { db with channels := db.channels.map f } cid
      = (Channel.get_by_id db cid).map f := by
  unfold Channel.get_by_id
  simp only [List.find?_map]
  have hp : ((fun c => c.id == cid) ∘ f) = (fun (c : ChannelRec) => c.id == cid) := by
    funext c
    simp [Function.comp, hf]
  rw [hp]

/-- Looking up an episode after an update whose row transformer preserves
video ids. -/
lemma get_by_video_id_map (db : DB) (vid : String)
    (f : EpisodeRec → EpisodeRec) (hf : ∀ e, (f e).video_id = e.video_id) :
    Episode.get_by_video_id { db with episodes := db.episodes.map f } vid
      = (Episode.get_by_video_id db vid).map f := by
  unfold Episode.get_by_video_id
  simp only [List.find?_map]
  have hp : ((fun e => e.video_id == vid) ∘ f)
      = (fun (e : EpisodeRec) => e.video_id == vid) := by
    funext e
    simp [Function.comp, hf]
  rw [hp]

/-- setAudioRow preserves the video id. -/
lemma setAudioRow_video_id (now eid : Nat) (ref : String) (e : EpisodeRec) :
    (Episode.setAudioRow now eid ref e).video_id = e.video_id := by
  unfold Episode.setAudioRow
  split <;> rfl

/-- setAudioRow keeps a truthy audio_path truthy (it either leaves the row
alone or writes the supplied reference). -/
lemma setAudioRow_truthy (now eid : Nat) (ref : String) (e : EpisodeRec)
    (h : truthyStr e.audio_path = true) (href : ref ≠ "") :
    truthyStr (Episode.setAudioRow now eid ref e).audio_path = true := by
  unfold Episode.setAudioRow
  split
  · simpa [truthyStr, strFalsy] using href
  · exact h

/-! ### C6: list_ready returns exactly the ready episodes, newest first -/

/-- C6: for every channel, Episode.get_by_channel (the list_ready of the
spec) contains exactly the episodes of that channel whose audio reference
is non-null, and the result is ordered by publish time descending (NULL
publish times last, as sqlite sorts them). -/
theorem list_ready_exact_and_sorted (db : DB) (cid : Nat) :
    (∀ e, e ∈ Episode.get_by_channel db cid ↔
        (e ∈ db.episodes ∧ e.channel_id = cid ∧ e.audio_path ≠ none)) ∧
    (Episode.get_by_channel db cid).Pairwise
      (fun a b => Episode.pubLe b.published_at a.published_at = true) := by
  constructor
  · intro e
    unfold Episode.get_by_channel
    rw [List.mem_mergeSort, List.mem_filter]
    simp [Option.isSome_iff_ne_none]
  · unfold Episode.get_by_channel
    refine List.sorted_mergeSort ?_ ?_ _
    · intro a b c hab hbc
      exact pubLe_trans _ _ _ hbc hab
    · intro a b
      exact pubLe_total _ _

/-! ### C8: mark_downloaded and repeated calls with the same reference -/

/-- C8 counterexample: calling update_audio_path (mark_downloaded) a second
time with the same audio reference does not leave the episode record in
the state the first call produced: the second call overwrites
downloaded_at with the later current time. -/
theorem mark_downloaded_second_call_changes_record :
    Episode.update_audio_path (Episode.update_audio_path dbPending 1 1 "v.mp3")
        2 1 "v.mp3"
      ≠ Episode.update_audio_path dbPending 1 1 "v.mp3" := by decide

/-- C8 amended: a second update_audio_path call with the same reference
leaves the audio reference unchanged and only refreshes the download
timestamp — the two calls together equal a single call made at the second
call's time. -/
theorem mark_downloaded_absorbed (db : DB) (now1 now2 eid : Nat)
    (ref : String) :
    Episode.update_audio_path (Episode.update_audio_path db now1 eid ref)
        now2 eid ref
      = Episode.update_audio_path db now2 eid ref := by
  unfold Episode.update_audio_path
  simp only [List.map_map]
  have hfun : (Episode.setAudioRow now2 eid ref ∘ Episode.setAudioRow now1 eid ref)
      = Episode.setAudioRow now2 eid ref := by
    funext e
    simp only [Function.comp, Episode.setAudioRow]
    by_cases h : (e.id == eid) = true <;> simp [h]
  rw [hfun]

/-! ### C2: switching auth mode clears the previous variant's fields -/

/-- clearAuthRow preserves the channel id. -/
lemma clearAuthRow_id (cid : Nat) (c : ChannelRec) :
    (Channel.clearAuthRow cid c).id = c.id := by
  unfold Channel.clearAuthRow
  split <;> rfl

/-- basicAuthRow preserves the channel id. -/
lemma basicAuthRow_id (cid : Nat) (u p : String) (c : ChannelRec) :
    (Channel.basicAuthRow cid u p c).id = c.id := by
  unfold Channel.basicAuthRow
  split <;> rfl

/-- tokenAuthRow preserves the channel id. -/
lemma tokenAuthRow_id (cid : Nat) (t : String) (c : ChannelRec) :
    (Channel.tokenAuthRow cid t c).id = c.id := by
  unfold Channel.tokenAuthRow
  split <;> rfl

/-- How update_auth evaluates in the "none" branch. -/
lemma update_auth_none_eq (db : DB) (cid : Nat) (u p : Option String)
    (tok : String) :
    Channel.update_auth db cid "none" u p tok
      = .ok ({ db with channels := db.channels.map (Channel.clearAuthRow cid) },
             none) := by
  simp [Channel.update_auth]

/-- How update_auth evaluates in the "token" branch. -/
lemma update_auth_token_eq (db : DB) (cid : Nat) (u p : Option String)
    (tok : String) :
    Channel.update_auth db cid "token" u p tok
      = .ok ({ db with
                 channels := db.channels.map (Channel.tokenAuthRow cid tok) },
             some tok) := by
  simp [Channel.update_auth]

/-- How update_auth evaluates in the "basic" branch with both credentials
present (truthy). -/
lemma update_auth_basic_eq (db : DB) (cid : Nat) (u p : Option String)
    (tok : String) (h : (strFalsy u || strFalsy p) = false) :
    Channel.update_auth db cid "basic" u p tok
      = .ok ({ db with
                 channels := db.channels.map
                   (Channel.basicAuthRow cid (u.getD "") (p.getD "")) },
             none) := by
  simp [Channel.update_auth, h]

/-- How update_auth evaluates in the "basic" branch with a missing username
or password: the ValueError of the source. -/
lemma update_auth_basic_err (db : DB) (cid : Nat) (u p : Option String)
    (tok : String) (h : (strFalsy u || strFalsy p) = true) :
    Channel.update_auth db cid "basic" u p tok
      = .error "Username and password required for basic auth" := by
  simp [Channel.update_auth, h]

/-- C2: every successful update_auth call clears the fields of the previous
auth variant in the same update: after switching to token mode the channel
has no username and no password hash; after switching to basic mode it has
no secret token; after switching to none it has none of the three. -/
theorem set_auth_clears_previous_variant
    (db : DB) (cid : Nat) (ch : ChannelRec) (u p : Option String)
    (tok : String) (h0 : Channel.get_by_id db cid = some ch) :
    (∀ db2 t, Channel.update_auth db cid "token" u p tok = .ok (db2, t) →
      ∃ ch2, Channel.get_by_id db2 cid = some ch2 ∧
        ch2.username = none ∧ ch2.password_hash = none) ∧
    (∀ db2 t, Channel.update_auth db cid "basic" u p tok = .ok (db2, t) →
      ∃ ch2, Channel.get_by_id db2 cid = some ch2 ∧
        ch2.secret_token = none) ∧
    (∀ db2 t, Channel.update_auth db cid "none" u p tok = .ok (db2, t) →
      ∃ ch2, Channel.get_by_id db2 cid = some ch2 ∧
        ch2.username = none ∧ ch2.password_hash = none ∧
        ch2.secret_token = none) := by
  have h0f : db.channels.find? (fun c => c.id == cid) = some ch := h0
  have hcid : (ch.id == cid) = true := by simpa using List.find?_some h0f
  refine ⟨?_, ?_, ?_⟩
  · intro db2 t h
    rw [update_auth_token_eq] at h
    simp only [Except.ok.injEq, Prod.mk.injEq] at h
    obtain ⟨hdb2, _⟩ := h
    refine ⟨Channel.tokenAuthRow cid tok ch, ?_, ?_, ?_⟩
    · rw [← hdb2, get_by_id_map db cid _ (tokenAuthRow_id cid tok), h0]
      simp
    · simp [Channel.tokenAuthRow, hcid]
    · simp [Channel.tokenAuthRow, hcid]
  · intro db2 t h
    rcases hf : (strFalsy u || strFalsy p) with _ | _
    · rw [update_auth_basic_eq db cid u p tok hf] at h
      simp only [Except.ok.injEq, Prod.mk.injEq] at h
      obtain ⟨hdb2, _⟩ := h
      refine ⟨Channel.basicAuthRow cid (u.getD "") (p.getD "") ch, ?_, ?_⟩
      · rw [← hdb2,
            get_by_id_map db cid _ (basicAuthRow_id cid (u.getD "") (p.getD "")),
            h0]
        simp
      · simp [Channel.basicAuthRow, hcid]
    · rw [update_auth_basic_err db cid u p tok hf] at h
      exact absurd h (by simp)
  · intro db2 t h
    rw [update_auth_none_eq] at h
    simp only [Except.ok.injEq, Prod.mk.injEq] at h
    obtain ⟨hdb2, _⟩ := h
    refine ⟨Channel.clearAuthRow cid ch, ?_, ?_, ?_, ?_⟩
    · rw [← hdb2, get_by_id_map db cid _ (clearAuthRow_id cid), h0]
      simp
    · simp [Channel.clearAuthRow, hcid]
    · simp [Channel.clearAuthRow, hcid]
    · simp [Channel.clearAuthRow, hcid]

/-- C2 witness: switching the concrete basic-auth channel to token mode
clears its username and password hash. -/
theorem set_auth_clears_previous_variant_witness :
    ∃ ch2, Channel.get_by_id dbTokenW 1 = some ch2 ∧
      ch2.username = none ∧ ch2.password_hash = none :=
  (set_auth_clears_previous_variant dbBasicW 1 chBasicW none none "tokA"
      (by decide)).1 dbTokenW (some "tokA") (by rfl)

/-! ### C3: token rotation invalidates the previous token -/

/-- C3: rotating a channel's token twice (two update_auth calls in token
mode with fresh random tokens) yields two distinct tokens and the first
token no longer resolves to any channel through get_by_token.  Freshness of
the random draws is the hypothesis hne/hfresh (a fresh high-entropy token
differs from the other draw and from every token already stored). -/
theorem token_rotation
    (db : DB) (cid : Nat) (ch : ChannelRec) (tok1 tok2 : String)
    (db1 db2 : DB) (r1 r2 : Option String)
    (h0 : Channel.get_by_id db cid = some ch)
    (hne : tok1 ≠ tok2)
    (hfresh : ∀ c ∈ db.channels, c.id ≠ cid → c.secret_token ≠ some tok1)
    (h1 : Channel.update_auth db cid "token" none none tok1 = .ok (db1, r1))
    (h2 : Channel.update_auth db1 cid "token" none none tok2 = .ok (db2, r2)) :
    r1 = some tok1 ∧ r2 = some tok2 ∧ r1 ≠ r2 ∧
      Channel.get_by_token db2 tok1 = none := by
  rw [update_auth_token_eq] at h1 h2
  simp only [Except.ok.injEq, Prod.mk.injEq] at h1 h2
  obtain ⟨hdb1, hr1⟩ := h1
  obtain ⟨hdb2, hr2⟩ := h2
  refine ⟨hr1.symm, hr2.symm, ?_, ?_⟩
  · rw [← hr1, ← hr2]
    simp [hne]
  · rw [← hdb2, ← hdb1]
    unfold Channel.get_by_token
    rw [List.find?_eq_none]
    intro c hc
    simp only [List.mem_map] at hc
    obtain ⟨c1, hc1, hc1eq⟩ := hc
    obtain ⟨c0, hc0, hc0eq⟩ := hc1
    subst hc1eq
    subst hc0eq
    by_cases hid : (c0.id == cid) = true
    · simp only [Channel.tokenAuthRow, hid, if_true]
      simp [hne.symm]
    · simp only [Channel.tokenAuthRow, hid, if_false]
      have hid2 : c0.id ≠ cid := by simpa using hid
      have := hfresh c0 hc0 hid2
      simp [hid, this]

/-- C3 witness: rotating the concrete channel's token twice ("A" then "B")
returns the two distinct tokens and "A" no longer resolves. -/
theorem token_rotation_witness :
    (some "A" : Option String) = some "A" ∧
    (some "B" : Option String) = some "B" ∧
    (some "A" : Option String) ≠ some "B" ∧
    Channel.get_by_token dbRotB "A" = none :=
  token_rotation dbNoneW 1 chNoneW "A" "B" dbRotA dbRotB (some "A") (some "B")
    (by decide) (by decide)
    (by
      intro c hc hne2
      simp only [dbNoneW, List.mem_singleton] at hc
      subst hc
      exact absurd rfl hne2)
    (by rfl) (by rfl)

/-! ### C7: set_auth error behaviour -/

/-- C7: through the auth-update route, a basic-mode call with a missing
(None or empty) username or password is rejected with the invalid-config
error and the database — hence the channel's auth policy — is unchanged,
and a call for an absent channel id answers NotFound, also leaving the
database unchanged. -/
theorem set_auth_error_behaviour
    (db : DB) (cid : Nat) (authT u p : Option String) (tok : String) :
    (Channel.get_by_id db cid = none →
      update_channel_auth db cid authT u p tok = (db, .notFound)) ∧
    ((strFalsy u || strFalsy p) = true →
      ∀ ch, Channel.get_by_id db cid = some ch →
        update_channel_auth db cid (some "basic") u p tok
          = (db, .badRequest "Username and password required")) := by
  constructor
  · intro hnone
    unfold update_channel_auth
    rw [hnone]
  · intro hf ch hsome
    unfold update_channel_auth
    rw [hsome]
    simp [hf]

/-- C7 witness: on the concrete one-channel database, a basic-mode auth
update with an empty password is rejected with the config error and the
database is unchanged, and an update for the absent channel id 7 answers
NotFound. -/
theorem set_auth_error_behaviour_witness :
    update_channel_auth dbBasicW 7 (some "basic") (some "alice") (some "x") "t"
        = (dbBasicW, .notFound) ∧
    update_channel_auth dbBasicW 1 (some "basic") (some "alice") (some "") "t"
        = (dbBasicW, .badRequest "Username and password required") :=
  ⟨(set_auth_error_behaviour dbBasicW 7 (some "basic") (some "alice") (some "x")
        "t").1 (by decide),
   (set_auth_error_behaviour dbBasicW 1 (some "basic") (some "alice") (some "")
        "t").2 (by decide) chBasicW (by decide)⟩

/-! ### C5: token-mode channels reject the local-id feed path and accept
the token path -/

/-- C5: for a channel in token mode, the local-id feed route always
answers the 401 token rejection whatever credentials the request carries,
while the token feed route with the channel's current secret token answers
200 with the channel's feed.  The tok1-uniqueness hypothesis huniq states
that no other channel row carries the same secret token (tokens are fresh
random draws). -/
theorem token_feed_paths
    (db : DB) (cid : Nat) (ch : ChannelRec) (tok : String)
    (h0 : Channel.get_by_id db cid = some ch)
    (htype : ch.auth_type = "token")
    (htok : ch.secret_token = some tok)
    (huniq : ∀ c ∈ db.channels, c.secret_token = some tok → c = ch) :
    (∀ req : HttpRequest, get_feed db req cid = .unauthorizedTokenMsg) ∧
    get_feed_by_token db tok = .ok (Episode.get_by_channel db ch.id) := by
  constructor
  · intro req
    have hauth : check_auth db req ch = false := by
      unfold check_auth
      simp [htype]
    simp [get_feed, h0, hauth, htype]
  · have hmem : ch ∈ db.channels := List.mem_of_find?_eq_some h0
    have hfind : db.channels.find? (fun c => c.secret_token == some tok)
        = some ch := by
      apply find?_eq_some_of_unique hmem
      · simp [htok]
      · intro b hb hpb
        exact huniq b hb (by simpa using hpb)
    unfold get_feed_by_token Channel.get_by_token
    rw [hfind]
    simp [htype]

/-- A database whose only channel is in token mode with token "A" and which
has no episodes, witness input. -/
theorem token_feed_paths_witness :
    get_feed dbRotA { authorization := some ("alice", "pw") } 1
        = .unauthorizedTokenMsg ∧
    get_feed_by_token dbRotA "A"
        = .ok (Episode.get_by_channel dbRotA 1) :=
  have h := token_feed_paths dbRotA 1
    { id := 1, youtube_channel_id := "UC1", name := "n", url := "u",
      auth_type := "token", username := none, password_hash := none,
      secret_token := some "A" } "A" (by decide) (by decide) (by decide)
    (by
      intro c hc _
      simp only [dbRotA, List.mem_singleton] at hc
      exact hc)
  ⟨h.1 { authorization := some ("alice", "pw") }, h.2⟩

/-! ### C10: downloaded_at is set exactly when audio_path is set -/

/-- C10: in every reachable database state, an episode's download
timestamp is non-null exactly when its audio reference is non-null. -/
theorem episode_audio_iff_downloaded (db : DB)
    (h : EpisodesReachable db) :
    ∀ e ∈ db.episodes, (e.audio_path ≠ none ↔ e.downloaded_at ≠ none) := by
  induction h with
  | init channels n =>
    intro e he
    cases he
  | create_step db db2 eid now cid vid title d dur pub ap th _ hap hcr ih =>
    intro e he
    unfold Episode.create at hcr
    split at hcr
    · exact absurd hcr (by simp)
    · simp only [Except.ok.injEq, Prod.mk.injEq] at hcr
      obtain ⟨hdb2, _⟩ := hcr
      rw [← hdb2] at he
      simp only [List.mem_append, List.mem_singleton] at he
      rcases he with he | he
      · exact ih e he
      · subst he
        rcases hap with hap | ⟨s, hap, hs⟩
        · subst hap
          simp [truthyStr, strFalsy]
        · subst hap
          simp [truthyStr, strFalsy, hs]
  | update_step db now eid ref _ ih =>
    intro e he
    unfold Episode.update_audio_path at he
    simp only [List.mem_map] at he
    obtain ⟨e0, he0, heq⟩ := he
    subst heq
    unfold Episode.setAudioRow
    split
    · simp
    · exact ih e0 he0
  | delete_step db cid _ ih =>
    intro e he
    unfold Episode.delete_by_channel at he
    simp only [List.mem_filter] at he
    exact ih e he.1

/-- C10 witness: the invariant evaluated on a concretely reachable state
(empty database, then one create with audio "v.mp3" at time 5). -/
theorem episode_audio_iff_downloaded_witness :
    ({ id := 1, channel_id := 1, video_id := "v", title := "t",
       description := none, duration := none, published_at := none,
       audio_path := some "v.mp3", downloaded_at := some 5,
       thumbnail_url := none } : EpisodeRec).audio_path ≠ none ↔
    ({ id := 1, channel_id := 1, video_id := "v", title := "t",
       description := none, duration := none, published_at := none,
       audio_path := some "v.mp3", downloaded_at := some 5,
       thumbnail_url := none } : EpisodeRec).downloaded_at ≠ none :=
  episode_audio_iff_downloaded dbReachW
    (EpisodesReachable.create_step
      { channels := [], episodes := [], nextEpisodeId := 1 } dbReachW 1 5 1
      "v" "t" none none none (some "v.mp3") none
      (EpisodesReachable.init [] 1)
      (Or.inr ⟨"v.mp3", rfl, by decide⟩)
      (by rfl))
    _ (by decide)

/-! ### C1 and C4: refresh skip, isolation and idempotence -/

/-- The audio filename built by download_audio is nonempty. -/
lemma download_name_ne (vid : String) : (vid ++ "." ++ AUDIO_FORMAT) ≠ "" := by
  intro h
  have h2 := congrArg String.length h
  simp [String.length_append] at h2
  exact absurd h2.2 (by decide)

/-- readyB under a successful lookup. -/
lemma readyB_some (db : DB) (vid : String) (e : EpisodeRec)
    (hf : Episode.get_by_video_id db vid = some e) :
    readyB db vid = truthyStr e.audio_path := by
  unfold readyB
  rw [hf]

/-- readyB under a failed lookup. -/
lemma readyB_none (db : DB) (vid : String)
    (hf : Episode.get_by_video_id db vid = none) :
    readyB db vid = false := by
  unfold readyB
  rw [hf]

/-- A ready video is skipped before any remote call: the step leaves the
database unchanged and makes no metadata or audio fetch. -/
lemma refreshStep_skip (r : Remote) (now : Nat) (ch : ChannelRec) (db : DB)
    (v : Video) (h : readyB db v.video_id = true) :
    Scheduler.refreshStep r now ch db v = (db, []) := by
  unfold Scheduler.refreshStep
  cases hf : Episode.get_by_video_id db v.video_id with
  | none => rw [readyB_none db v.video_id hf] at h; exact absurd h (by simp)
  | some e =>
    rw [readyB_some db v.video_id e hf] at h
    simp [hf, h]

/-- Readiness of any video id survives one refresh step: the step either
skips, rewrites an audio path to another nonempty download filename, or
appends a fresh episode behind the existing one. -/
lemma refreshStep_preserves_ready (r : Remote) (now : Nat) (ch : ChannelRec)
    (db : DB) (v : Video) (vid : String) (h : readyB db vid = true) :
    readyB (Scheduler.refreshStep r now ch db v).1 vid = true := by
  cases hf : Episode.get_by_video_id db vid with
  | none => rw [readyB_none db vid hf] at h; exact absurd h (by simp)
  | some e =>
  rw [readyB_some db vid e hf] at h
  unfold Scheduler.refreshStep
  cases hex : Episode.get_by_video_id db v.video_id with
  | some ex =>
    by_cases htr : truthyStr ex.audio_path = true
    · simp only [hex, htr, if_true]
      rw [readyB_some db vid e hf]
      exact h
    · cases hmd : r.get_video_metadata v.video_id with
      | error msg =>
        simp only [Scheduler.tryProcess, hex, hmd, htr, Bool.false_eq_true,
                   if_false]
        rw [readyB_some db vid e hf]
        exact h
      | ok md =>
        cases hau : r.audioFetch v.video_id with
        | error msg =>
          simp only [Scheduler.tryProcess, download_audio, hex, hmd, hau,
                     htr, Except.map, Bool.false_eq_true, if_false]
          rw [readyB_some db vid e hf]
          exact h
        | ok n =>
          simp only [Scheduler.tryProcess, download_audio, hex, hmd, hau,
                     htr, Except.map, Bool.false_eq_true, if_false]
          have hmap := get_by_video_id_map db vid
            (Episode.setAudioRow now ex.id (v.video_id ++ "." ++ AUDIO_FORMAT))
            (setAudioRow_video_id now ex.id _)
          unfold readyB Episode.update_audio_path
          rw [hmap, hf]
          exact setAudioRow_truthy now ex.id _ e h (download_name_ne v.video_id)
  | none =>
    have hany : db.episodes.any (fun e2 => e2.video_id == v.video_id) = false := by
      rw [List.any_eq_false]
      exact List.find?_eq_none.mp hex
    cases hmd : r.get_video_metadata v.video_id with
    | error msg =>
      simp only [Scheduler.tryProcess, hex, hmd]
      rw [readyB_some db vid e hf]
      exact h
    | ok md =>
      cases hau : r.audioFetch v.video_id with
      | error msg =>
        simp only [Scheduler.tryProcess, download_audio, hex, hmd, hau,
                   Except.map]
        rw [readyB_some db vid e hf]
        exact h
      | ok n =>
        simp only [Scheduler.tryProcess, download_audio, hex, hmd, hau,
                   Except.map, Episode.create, hany, Bool.false_eq_true,
                   if_false]
        unfold readyB Episode.get_by_video_id
        simp only [List.find?_append]
        have hfold : db.episodes.find? (fun e2 => e2.video_id == vid) = some e := hf
        rw [hfold]
        simp [h]

/-- When the metadata fetch and the audio extraction of a video both
succeed, the refresh step leaves that video ready: the existing pending
episode gets the download filename, or a fresh downloaded episode is
created. -/
lemma refreshStep_makes_ready (r : Remote) (now : Nat) (ch : ChannelRec)
    (db : DB) (v : Video)
    (hmd : ∃ md, r.get_video_metadata v.video_id = .ok md)
    (hau : ∃ n, r.audioFetch v.video_id = .ok n) :
    readyB (Scheduler.refreshStep r now ch db v).1 v.video_id = true := by
  obtain ⟨md, hmd⟩ := hmd
  obtain ⟨n, hau⟩ := hau
  unfold Scheduler.refreshStep
  cases hex : Episode.get_by_video_id db v.video_id with
  | some ex =>
    by_cases htr : truthyStr ex.audio_path = true
    · simp only [hex, htr, if_true]
      rw [readyB_some db v.video_id ex hex]
      exact htr
    · simp only [Scheduler.tryProcess, download_audio, hex, hmd, hau,
                 htr, Except.map, Bool.false_eq_true, if_false]
      have hmap := get_by_video_id_map db v.video_id
        (Episode.setAudioRow now ex.id (v.video_id ++ "." ++ AUDIO_FORMAT))
        (setAudioRow_video_id now ex.id _)
      unfold readyB Episode.update_audio_path
      rw [hmap, hex]
      unfold Episode.setAudioRow
      simp [download_name_truthy]
  | none =>
    have hany : db.episodes.any (fun e2 => e2.video_id == v.video_id) = false := by
      rw [List.any_eq_false]
      exact List.find?_eq_none.mp hex
    simp only [Scheduler.tryProcess, download_audio, hex, hmd, hau,
               Except.map, Episode.create, hany, Bool.false_eq_true,
               if_false]
    unfold readyB Episode.get_by_video_id
    simp only [List.find?_append]
    have hnone : db.episodes.find? (fun e2 => e2.video_id == v.video_id)
        = none := hex
    rw [hnone]
    simp [List.find?, download_name_truthy]

/-- Readiness of a video id survives the whole per-video loop. -/
lemma refreshFold_preserves_ready (r : Remote) (now : Nat) (ch : ChannelRec) :
    ∀ (vids : List Video) (acc : DB × List RemoteCall) (vid : String),
      readyB acc.1 vid = true →
      readyB
        ((vids.foldl (Scheduler.refreshFoldStep r now ch) acc)).1 vid = true := by
  intro vids
  induction vids with
  | nil => intro acc vid h; exact h
  | cons w ws ih =>
    intro acc vid h
    simp only [List.foldl_cons]
    exact ih _ vid (refreshStep_preserves_ready r now ch acc.1 w vid h)

/-- A video of the batch whose metadata fetch and audio extraction succeed
is ready after the loop, whatever happens to the other videos. -/
lemma refreshFold_ready_of_mem (r : Remote) (now : Nat) (ch : ChannelRec) :
    ∀ (vids : List Video) (acc : DB × List RemoteCall) (v : Video),
      v ∈ vids →
      (∃ md, r.get_video_metadata v.video_id = .ok md) →
      (∃ n, r.audioFetch v.video_id = .ok n) →
      readyB
        ((vids.foldl (Scheduler.refreshFoldStep r now ch) acc)).1 v.video_id
        = true := by
  intro vids
  induction vids with
  | nil => intro acc v hv; cases hv
  | cons w ws ih =>
    intro acc v hv hmd hau
    simp only [List.foldl_cons]
    rcases List.mem_cons.mp hv with hv | hv
    · subst hv
      exact refreshFold_preserves_ready r now ch ws _ v.video_id
        (refreshStep_makes_ready r now ch acc.1 v hmd hau)
    · exact ih _ v hv hmd hau

/-- When every video of the batch is already ready, the loop is the
identity: no database change and no remote calls appended. -/
lemma refreshFold_skip_all (r : Remote) (now : Nat) (ch : ChannelRec) :
    ∀ (vids : List Video) (acc : DB × List RemoteCall),
      (∀ v ∈ vids, readyB acc.1 v.video_id = true) →
      vids.foldl (Scheduler.refreshFoldStep r now ch) acc = acc := by
  intro vids
  induction vids with
  | nil => intro acc _; rfl
  | cons w ws ih =>
    intro acc hready
    simp only [List.foldl_cons]
    have hstep : Scheduler.refreshFoldStep r now ch acc w = acc := by
      unfold Scheduler.refreshFoldStep
      rw [refreshStep_skip r now ch acc.1 w (hready w (List.mem_cons_self w ws))]
      simp
    rw [hstep]
    exact ih acc (fun v hv => hready v (List.mem_cons_of_mem w hv))

/-- C1: refresh idempotence.  When the first refresh succeeds for every
listed video (metadata fetch and audio extraction both succeed), a second
refresh against the same remote listing returns the database unchanged and
makes zero remote calls: every video is skipped by the
episode-exists-with-audio check before any metadata or audio fetch, so no
duplicate episodes are created and nothing is re-downloaded. -/
theorem refresh_channel_idempotent
    (r : Remote) (now1 now2 : Nat) (db : DB) (ch : ChannelRec)
    (videos : List Video)
    (hl : r.fetch_channel_videos ch.youtube_channel_id = .ok videos)
    (hm : ∀ v ∈ videos, ∃ md, r.get_video_metadata v.video_id = .ok md)
    (ha : ∀ v ∈ videos, ∃ n, r.audioFetch v.video_id = .ok n) :
    Scheduler.refresh_channel r now2
        (Scheduler.refresh_channel r now1 db ch).1 ch
      = ((Scheduler.refresh_channel r now1 db ch).1, []) := by
  have hdb1 : Scheduler.refresh_channel r now1 db ch
      = videos.foldl (Scheduler.refreshFoldStep r now1 ch) (db, []) := by
    unfold Scheduler.refresh_channel
    rw [hl]
  generalize hg : (Scheduler.refresh_channel r now1 db ch).1 = db1
  have hready : ∀ v ∈ videos, readyB db1 v.video_id = true := by
    intro v hv
    rw [← hg, hdb1]
    exact refreshFold_ready_of_mem r now1 ch videos (db, []) v hv
      (hm v hv) (ha v hv)
  unfold Scheduler.refresh_channel
  rw [hl]
  exact refreshFold_skip_all r now2 ch videos (db1, []) hready

/-- C1 witness: on the concrete one-video remote service, the second
refresh of the freshly refreshed database is the identity with an empty
call log. -/
theorem refresh_channel_idempotent_witness :
    Scheduler.refresh_channel remoteOkW 2
        (Scheduler.refresh_channel remoteOkW 1 dbSchedW chNoneW).1 chNoneW
      = ((Scheduler.refresh_channel remoteOkW 1 dbSchedW chNoneW).1, []) :=
  refresh_channel_idempotent remoteOkW 1 2 dbSchedW chNoneW [vidW] rfl
    (fun v _ =>
      ⟨{ title := "T", description := none, duration := some 10,
         published_at := some 100, thumbnail_url := none }, rfl⟩)
    (fun v _ => ⟨7, rfl⟩)

/-- C4: partial-failure isolation.  A refresh step whose metadata fetch or
audio extraction fails leaves the database exactly as it was (the video is
skipped), and every video of the batch whose own fetches succeed ends up
with a downloaded episode regardless of other videos failing; the refresh
function itself is total, so no failure escapes to the caller. -/
theorem refresh_partial_failure_isolated
    (r : Remote) (now : Nat) (db : DB) (ch : ChannelRec)
    (videos : List Video)
    (hl : r.fetch_channel_videos ch.youtube_channel_id = .ok videos) :
    (∀ (db0 : DB) (w : Video),
        (r.get_video_metadata w.video_id).isOk = false ∨
          (r.audioFetch w.video_id).isOk = false →
        (Scheduler.refreshStep r now ch db0 w).1 = db0) ∧
    (∀ v ∈ videos,
        (∃ md, r.get_video_metadata v.video_id = .ok md) →
        (∃ n, r.audioFetch v.video_id = .ok n) →
        readyB (Scheduler.refresh_channel r now db ch).1 v.video_id
          = true) := by
  constructor
  · intro db0 w hfail
    unfold Scheduler.refreshStep
    cases hex : Episode.get_by_video_id db0 w.video_id with
    | some ex =>
      by_cases htr : truthyStr ex.audio_path = true
      · simp [hex, htr]
      · cases hmd : r.get_video_metadata w.video_id with
        | error msg => simp [Scheduler.tryProcess, hex, hmd, htr]
        | ok md =>
          cases hau : r.audioFetch w.video_id with
          | error msg =>
            simp [Scheduler.tryProcess, download_audio, hex, hmd, hau,
                  htr, Except.map]
          | ok n =>
            rcases hfail with hfail | hfail
            · rw [hmd] at hfail
              exact absurd hfail (by simp [Except.isOk, Except.toBool])
            · rw [hau] at hfail
              exact absurd hfail (by simp [Except.isOk, Except.toBool])
    | none =>
      cases hmd : r.get_video_metadata w.video_id with
      | error msg => simp [Scheduler.tryProcess, hex, hmd]
      | ok md =>
        cases hau : r.audioFetch w.video_id with
        | error msg =>
          simp [Scheduler.tryProcess, download_audio, hex, hmd, hau,
                Except.map]
        | ok n =>
          rcases hfail with hfail | hfail
          · rw [hmd] at hfail
            exact absurd hfail (by simp [Except.isOk, Except.toBool])
          · rw [hau] at hfail
            exact absurd hfail (by simp [Except.isOk, Except.toBool])
  · intro v hv hmd hau
    unfold Scheduler.refresh_channel
    rw [hl]
    exact refreshFold_ready_of_mem r now ch videos (db, []) v hv hmd hau

/-- C4 witness: with extraction failing for the middle video, the step on
that video leaves the database untouched while videos 1 and 3 come out
downloaded; the failed video has no downloaded episode. -/
theorem refresh_partial_failure_isolated_witness :
    (Scheduler.refreshStep remoteFailW 0 chNoneW dbSchedW vidW2).1 = dbSchedW ∧
    readyB (Scheduler.refresh_channel remoteFailW 0 dbSchedW chNoneW).1 "v1"
      = true ∧
    readyB (Scheduler.refresh_channel remoteFailW 0 dbSchedW chNoneW).1 "v3"
      = true ∧
    readyB (Scheduler.refresh_channel remoteFailW 0 dbSchedW chNoneW).1 "v2"
      = false :=
  have h := refresh_partial_failure_isolated remoteFailW 0 dbSchedW chNoneW
    [vidW1, vidW2, vidW3] rfl
  ⟨h.1 dbSchedW vidW2 (Or.inr rfl),
   h.2 vidW1 (by simp [vidW1, vidW2, vidW3])
     ⟨{ title := "T", description := none, duration := none,
        published_at := none, thumbnail_url := none }, rfl⟩
     ⟨9, rfl⟩,
   h.2 vidW3 (by simp [vidW1, vidW2, vidW3])
     ⟨{ title := "T", description := none, duration := none,
        published_at := none, thumbnail_url := none }, rfl⟩
     ⟨9, rfl⟩,
   by decide⟩
